import Mathlib

/-!
Shallow embedding of the NIP-42 relay authentication client in
`src/lib/relay-auth.ts` (class `NostrAuthService`), covering the
`authenticate()` handshake handler, the `publishKind30078Event()` flow with
its swap-and-restore message handler, the timeout callbacks, and
`disconnect()`.  The asynchronous callback code is modelled as pure step
functions over explicit session state; inbound WebSocket payloads are
`Option InMsg`, where `none` stands for data on which `JSON.parse` throws.
-/

namespace RelayAuth

/-- `AuthConfig` (relay-auth.ts lines 4–7): relay URL plus optional timeout. -/
structure AuthConfig where
  relayUrl : String
  timeout : Option Nat
deriving Repr, DecidableEq

/-- `this.config.timeout || 10000`: JavaScript `||` also replaces `0`. -/
def AuthConfig.timeoutMs (c : AuthConfig) : Nat :=
  match c.timeout with
  | none => 10000
  | some t => if t = 0 then 10000 else t

/-- The unsigned event shape built by the client (kind, created_at, tags,
content, pubkey). -/
structure EventTemplate where
  kind : Nat
  created_at : Nat
  tags : List (List String)
  content : String
  pubkey : String
deriving Repr, DecidableEq

/-- A signed event: `window.nostr.signEvent` returns the original fields plus
an `id` and a `sig` (NIP-07 contract; Signer Adapter boundary in the spec). -/
structure SignedEvent where
  ev : EventTemplate
  id : String
  sig : String
deriving Repr, DecidableEq

/-- The external NIP-07 signer, modelled by the functions that produce the
identifier and signature it adds; field preservation is the NIP-07 contract. -/
structure Signer where
  idOf : EventTemplate → String
  sigOf : EventTemplate → String

/-- `signer.signEvent(event)`: attach identifier and signature. -/
def Signer.signEvent (s : Signer) (e : EventTemplate) : SignedEvent :=
  ⟨e, s.idOf e, s.sigOf e⟩

/-- Parsed inbound relay messages, by their leading tag string:
`["AUTH", challenge]`, `["OK", id, success, reason?]`,
`["CLOSED", subId, reason?]`, and anything else. -/
inductive InMsg
  | challengeMsg (challenge : String)
  | okMsg (id : String) (success : Bool) (reason : Option String)
  | closedMsg (subId : String) (reason : Option String)
  | other
deriving Repr, DecidableEq

/-- Outbound wire messages the client sends on the socket. -/
inductive OutMsg
  | reqMsg (subId : String)
  | authMsg (signed : SignedEvent)
  | eventMsg (signed : SignedEvent)
deriving Repr, DecidableEq

/-- A JavaScript `Promise` executor's resolution state.  `resolve`/`reject`
after settlement are no-ops, matching Promise semantics. -/
inductive PromiseState (α : Type)
  | pending
  | fulfilled (v : α)
  | rejectedWith (msg : String)
deriving Repr, DecidableEq

/-- `resolve v`: settles a pending promise, no-op otherwise. -/
def PromiseState.resolveWith : PromiseState α → α → PromiseState α
  | .pending, v => .fulfilled v
  | s, _ => s

/-- `reject (new Error msg)`: settles a pending promise, no-op otherwise. -/
def PromiseState.rejectWith : PromiseState α → String → PromiseState α
  | .pending, m => .rejectedWith m
  | s, _ => s

/-- The service's mutable fields (relay-auth.ts lines 15–17):
`relay : WebSocket | null` is modelled by `relayPresent` (handle non-null)
and `socketOpen` (underlying connection not closed), plus
`isAuthenticated` and `authChallenge`. -/
structure ServiceState where
  relayPresent : Bool
  socketOpen : Bool
  isAuthenticated : Bool
  authChallenge : Option String
deriving Repr, DecidableEq

/-- JavaScript `hay.includes(needle)` on strings. -/
def strIncludes (hay needle : String) : Bool :=
  (List.range (hay.length + 1)).any
    fun i => ((hay.toList.drop i).take needle.length) == needle.toList

/-- `message[3] && message[3].includes('auth-required')`: an absent or empty
reason is falsy and short-circuits. -/
def reasonHasAuthRequired : Option String → Bool
  | none => false
  | some r => strIncludes r "auth-required"

/-- `message[3] || 'Unknown error'`: JavaScript `||` with the empty string
falsy. -/
def jsOrDefault (r : Option String) (d : String) : String :=
  match r with
  | none => d
  | some s => if s == "" then d else s

/-- The state closed over by the `authenticate()` promise executor
(relay-auth.ts lines 48–136): the service fields, the pubkey resolved from
the signer, the returned promise, the single handshake timer, and the signed
proof record last sent (`signedAuthEvent`), if any. -/
structure AuthSession where
  svc : ServiceState
  pubkey : String
  promise : PromiseState Bool
  timerActive : Bool
  sentProof : Option SignedEvent
deriving Repr, DecidableEq

/-- `getNip07Signer()` (relay-auth.ts lines 26–35): fails when `window.nostr`
is absent, otherwise yields the extension's pubkey and signer.  The host
environment is modelled by `winNostr`. -/
def getNip07Signer (winNostr : Option (String × Signer)) :
    Except String (String × Signer) :=
  match winNostr with
  | none => .error "NIP-07 extension not found. Please install a Nostr extension like Alby or nos2x."
  | some s => .ok s

/-- `authenticate()` up to WebSocket creation (relay-auth.ts lines 40–54):
resolve the signer and pubkey first; only then is `this.relay` assigned a new
(not yet open) WebSocket.  Returns the outcome together with the service
state as left by this prefix of the call. -/
def authenticateStart (winNostr : Option (String × Signer)) (s : ServiceState) :
    Except String AuthSession × ServiceState :=
  match getNip07Signer winNostr with
  | .error e => (.error e, s)
  | .ok (pk, _) =>
      let s' : ServiceState := { s with relayPresent := true, socketOpen := false }
      (.ok { svc := s', pubkey := pk, promise := .pending,
             timerActive := true, sentProof := none }, s')

/-- `relay.onopen` (relay-auth.ts lines 56–63): send the trigger REQ. -/
def authOnOpen (st : AuthSession) : AuthSession × List OutMsg :=
  ({ st with svc := { st.svc with socketOpen := true } }, [.reqMsg "auth_trigger"])

/-- `relay.onmessage` installed by `authenticate()` (relay-auth.ts lines
65–118).  `data = none` models a payload on which `JSON.parse` throws: the
handler's catch block only logs.  On `AUTH`, capture the challenge, build the
kind-22242 proof event over the configured relay URL and that challenge,
sign it, and send it.  On `OK` with `message[2] === true` and
`message[1].length === 64`, set the flag, clear the timer and resolve; the
identifier is never compared with `signedAuthEvent.id`.  On `CLOSED`, log
only.  On `OK` with `message[2] === false`, reject only when the reason
includes `auth-required`. -/
def authOnMessage (cfg : AuthConfig) (signer : Signer) (now : Nat)
    (st : AuthSession) (data : Option InMsg) : AuthSession × List OutMsg :=
  match data with
  | none => (st, [])
  | some m =>
    match m with
    | .challengeMsg c =>
        let st1 := { st with svc := { st.svc with authChallenge := some c } }
        let authEvent : EventTemplate :=
          { kind := 22242, created_at := now,
            tags := [["relay", cfg.relayUrl], ["challenge", c]],
            content := "", pubkey := st.pubkey }
        let signed := signer.signEvent authEvent
        ({ st1 with sentProof := some signed }, [.authMsg signed])
    | .okMsg i success reason =>
        if success && i.length == 64 then
          ({ st with svc := { st.svc with isAuthenticated := true },
                     timerActive := false,
                     promise := st.promise.resolveWith true }, [])
        else if !success then
          if reasonHasAuthRequired reason then
            ({ st with timerActive := false,
                       promise := st.promise.rejectWith "Authentication required but failed" }, [])
          else (st, [])
        else (st, [])
    | .closedMsg _ _ => (st, [])
    | .other => (st, [])

/-- The `authenticate()` `setTimeout` callback (relay-auth.ts lines 49–51):
its body is only `reject(new Error('Authentication timeout'))`; it mentions
neither `this.relay` nor `this.isAuthenticated`. -/
def authTimeoutFires (st : AuthSession) : AuthSession :=
  { st with promise := st.promise.rejectWith "Authentication timeout" }

/-- `relay.onerror` (relay-auth.ts lines 120–124). -/
def authOnError (st : AuthSession) : AuthSession :=
  { st with timerActive := false,
            promise := st.promise.rejectWith "WebSocket connection failed" }

/-- `relay.onclose` (relay-auth.ts lines 126–129): the connection is closed
and the handler clears the flag. -/
def authOnClose (st : AuthSession) : AuthSession :=
  { st with svc := { st.svc with socketOpen := false, isAuthenticated := false } }

/-- Outcome of a `publishKind30078Event(...)` call, up to installing the
correlation handler: the guard throw, or the signed event plus the wire
messages sent. -/
inductive PublishStart
  | notAuthenticated
  | started (signed : SignedEvent) (out : List OutMsg)
deriving Repr, DecidableEq

/-- Wire messages a `publishKind30078Event` call sends. -/
def PublishStart.sentWire : PublishStart → List OutMsg
  | .notAuthenticated => []
  | .started _ out => out

/-- `publishKind30078Event(content, dTag, additionalTags)` (relay-auth.ts
lines 147–212), up to installing the correlation handler: guard on
`!this.isAuthenticated || !this.relay`, build the kind-30078 event with
`tags: [['d', dTag], ...additionalTags]`, sign it, and send
`['EVENT', signedEvent]`. -/
def publishKind30078Event (signer : Signer) (now : Nat) (pubkey : String)
    (svc : ServiceState) (content dTag : String)
    (additionalTags : List (List String)) : PublishStart :=
  if !svc.isAuthenticated || !svc.relayPresent then
    .notAuthenticated
  else
    let event : EventTemplate :=
      { kind := 30078, created_at := now,
        tags := ["d", dTag] :: additionalTags,
        content := content, pubkey := pubkey }
    let signed := signer.signEvent event
    .started signed [.eventMsg signed]

/-- A tag entry whose first element is `d` (the distinguishing tag of a
parameterized replaceable event). -/
def isDTag (t : List String) : Bool := t.head? == some "d"

/-- Number of distinguishing-tag entries in a tag list. -/
def countDTags (tags : List (List String)) : Nat := (tags.filter isDTag).length

/-- The chain of `onmessage` handlers on the socket: each publish call saves
`this.relay.onmessage` into `originalOnMessage` and installs a wrapper that
invokes the saved handler first (relay-auth.ts lines 179–185), so the chain
is the base `authenticate()` handler wrapped once per in-flight publish. -/
inductive HandlerChain
  | base
  | wrap (original : HandlerChain) (signed : SignedEvent)
deriving Repr, DecidableEq

/-- The identifiers of the publish operations whose correlation handlers are
installed, most recent first. -/
def HandlerChain.pendingIds : HandlerChain → List String
  | .base => []
  | .wrap orig s => s.id :: orig.pendingIds

/-- Session state during the publish phase: the service fields plus the
current `onmessage` handler chain. -/
structure PubPhase where
  svc : ServiceState
  chain : HandlerChain
deriving Repr, DecidableEq

/-- A `publishKind30078Event` call against a session in the publish phase:
same guard and build as `publishKind30078Event`, plus the handler swap
`this.relay.onmessage = wrapper(originalOnMessage)` when the call proceeds.
No in-flight check of any kind precedes the swap. -/
def publishCall (signer : Signer) (now : Nat) (pubkey : String)
    (st : PubPhase) (content dTag : String)
    (additionalTags : List (List String)) : PublishStart × PubPhase :=
  match publishKind30078Event signer now pubkey st.svc content dTag additionalTags with
  | .notAuthenticated => (.notAuthenticated, st)
  | .started signed out =>
      (.started signed out, { st with chain := .wrap st.chain signed })

/-- The per-publish state closed over by a publish promise executor:
the signed event, the promise, its timer, and whether this operation's
wrapper is still installed as `this.relay.onmessage`. -/
structure PublishOp where
  signed : SignedEvent
  promise : PromiseState String
  timerActive : Bool
  handlerInstalled : Bool
deriving Repr, DecidableEq

/-- The wrapper `onmessage` installed by a publish call (relay-auth.ts lines
181–206), composed with the original `authenticate()` handler it saved: the
wrapper calls the original first, then parses the payload itself (its catch
only logs), and when `message[0] === 'OK' && message[1] === signedEvent.id`
it clears the timer, resolves on success or rejects with
`Publish failed: <reason>`, and restores the original handler.  Messages for
other identifiers fall through untouched. -/
def publishOnMessage (cfg : AuthConfig) (signer : Signer) (now : Nat)
    (auth : AuthSession) (op : PublishOp) (data : Option InMsg) :
    AuthSession × PublishOp × List OutMsg :=
  let step := authOnMessage cfg signer now auth data
  match data with
  | none => (step.1, op, step.2)
  | some m =>
    match m with
    | .okMsg i success reason =>
        if i == op.signed.id then
          if success then
            (step.1, { op with timerActive := false,
                               promise := op.promise.resolveWith op.signed.id,
                               handlerInstalled := false }, step.2)
          else
            (step.1, { op with timerActive := false,
                               promise := op.promise.rejectWith
                                 ("Publish failed: " ++ jsOrDefault reason "Unknown error"),
                               handlerInstalled := false }, step.2)
        else (step.1, op, step.2)
    | _ => (step.1, op, step.2)

/-- The publish `setTimeout` callback (relay-auth.ts lines 174–176): its body
is only `reject(new Error('Publish timeout'))`; it does not touch the socket,
the service flags, or the installed `onmessage` handler. -/
def publishTimeoutFires (auth : AuthSession) (op : PublishOp) :
    AuthSession × PublishOp :=
  (auth, { op with promise := op.promise.rejectWith "Publish timeout" })

/-- `disconnect()` (relay-auth.ts lines 223–230): close and null the relay if
present, then clear the flag and the pending challenge. -/
def disconnect (s : ServiceState) : ServiceState :=
  let s1 := if s.relayPresent
    then { s with socketOpen := false, relayPresent := false }
    else s
  { s1 with isAuthenticated := false, authChallenge := none }

/-- `getAuthStatus()` (relay-auth.ts lines 235–237). -/
def getAuthStatus (s : ServiceState) : Bool := s.isAuthenticated

end RelayAuth

namespace RelayAuth

/-! Concrete inputs used by counterexamples and witnesses. -/

/-- A concrete signer whose identifier function returns the event's content. -/
def sampleSigner : Signer := ⟨fun e => e.content, fun _ => "sig"⟩

/-- A 64-character identifier. -/
def idA : String := String.mk (List.replicate 64 'a')

/-- A different 64-character identifier. -/
def idB : String := String.mk (List.replicate 64 'b')

/-- A concrete signed proof record with identifier `idA`. -/
def proof0 : SignedEvent :=
  ⟨⟨22242, 0, [["relay", "wss://relay.example"], ["challenge", "c1"]], "", "pk"⟩, idA, "sig"⟩

/-- A concrete configuration. -/
def cfg0 : AuthConfig := ⟨"wss://relay.example", none⟩

/-- A concrete mid-handshake session: proof record `proof0` sent, promise
pending, socket open. -/
def st0 : AuthSession :=
  { svc := ⟨true, true, false, some "c1"⟩, pubkey := "pk", promise := .pending,
    timerActive := true, sentProof := some proof0 }

/-- A concrete in-flight publish record. -/
def ev1 : SignedEvent := ⟨⟨30078, 0, [["d", "first"]], "one", "pk"⟩, "id-one", "sig"⟩

/-- A concrete authenticated publish-phase session with `ev1` in flight. -/
def pub0 : PubPhase := ⟨⟨true, true, true, none⟩, .wrap .base ev1⟩

/-- A concrete authenticated session after a successful handshake. -/
def auth0 : AuthSession :=
  { svc := ⟨true, true, true, none⟩, pubkey := "pk", promise := .fulfilled true,
    timerActive := false, sentProof := some proof0 }

/-- A concrete pending publish operation for `ev1`, handler installed. -/
def op0 : PublishOp := ⟨ev1, .pending, true, true⟩

end RelayAuth

namespace RelayAuth

/-- C1 counterexample: with the signed proof record `proof0` (identifier
`idA`) pending, an inbound `OK` acceptance for the different 64-character
identifier `idB` nevertheless resolves the handshake promise with `true` and
marks the session authenticated — the handler never compares the incoming
identifier against the proof record's. -/
theorem C1_counterexample :
    (st0.sentProof = some proof0 ∧ proof0.id = idA ∧ idA ≠ idB ∧
      st0.promise = PromiseState.pending) ∧
    (authOnMessage cfg0 sampleSigner 0 st0 (some (.okMsg idB true none))).1.promise =
      PromiseState.fulfilled true ∧
    (authOnMessage cfg0 sampleSigner 0 st0 (some (.okMsg idB true none))).1.svc.isAuthenticated =
      true := by
  decide

/-- C1 (amended): during the handshake, an inbound `OK` acceptance resolves
the pending `authenticate()` promise (and sets the authenticated flag)
exactly when its success flag is true and its identifier is 64 characters
long; the identifier is never compared against the sent proof record's
identifier, and an acceptance whose identifier length is not 64 leaves the
session untouched. -/
theorem C1_amended (cfg : AuthConfig) (signer : Signer) (now : Nat)
    (st : AuthSession) (i : String) (r : Option String)
    (hpend : st.promise = PromiseState.pending) :
    (i.length = 64 →
      (authOnMessage cfg signer now st (some (.okMsg i true r))).1.promise =
        PromiseState.fulfilled true ∧
      (authOnMessage cfg signer now st (some (.okMsg i true r))).1.svc.isAuthenticated =
        true) ∧
    (i.length ≠ 64 →
      authOnMessage cfg signer now st (some (.okMsg i true r)) = (st, [])) := by
  constructor
  · intro h64
    simp [authOnMessage, h64, hpend, PromiseState.resolveWith]
  · intro h64
    simp [authOnMessage, h64]

/-- C1 amended, instantiated: an acceptance for the 64-character `idB`
resolves `st0`'s handshake; an acceptance for the 5-character `short`
identifier leaves `st0` untouched. -/
theorem C1_amended_witness :
    ((authOnMessage cfg0 sampleSigner 0 st0 (some (.okMsg idB true none))).1.promise =
        PromiseState.fulfilled true ∧
      (authOnMessage cfg0 sampleSigner 0 st0 (some (.okMsg idB true none))).1.svc.isAuthenticated =
        true) ∧
    authOnMessage cfg0 sampleSigner 0 st0 (some (.okMsg "short" true none)) = (st0, []) := by
  refine ⟨(C1_amended cfg0 sampleSigner 0 st0 idB none rfl).1 (by decide), ?_⟩
  exact (C1_amended cfg0 sampleSigner 0 st0 "short" none rfl).2 (by decide)

end RelayAuth

namespace RelayAuth

/-- C2 counterexample: with publish `ev1` (identifier `id-one`) already in
flight on `pub0`, a second `publishKind30078Event` call does not fail — there
is no `OperationInProgress` outcome: it signs and sends a second `EVENT`
wire message and installs its handler wrapping the first's, which stays in
the chain. -/
theorem C2_counterexample :
    (pub0.chain.pendingIds = ["id-one"]) ∧
    (publishCall sampleSigner 0 "pk" pub0 "two" "second" []).1 =
      PublishStart.started ⟨⟨30078, 0, [["d", "second"]], "two", "pk"⟩, "two", "sig"⟩
        [.eventMsg ⟨⟨30078, 0, [["d", "second"]], "two", "pk"⟩, "two", "sig"⟩] ∧
    (publishCall sampleSigner 0 "pk" pub0 "two" "second" []).2.chain.pendingIds =
      ["two", "id-one"] := by
  decide

/-- C2 (amended): a second `publishKind30078Event` call before the first
resolves does not fail fast — the code has no reentrancy guard — it builds,
signs and sends the second record, and installs its correlation handler
wrapping the previous one, so the earlier publish's identifier remains in
the handler chain. -/
theorem C2_amended (signer : Signer) (now : Nat) (pubkey : String)
    (st : PubPhase) (content dTag : String) (tags : List (List String))
    (hauth : st.svc.isAuthenticated = true) (hrelay : st.svc.relayPresent = true) :
    (publishCall signer now pubkey st content dTag tags).1 =
      PublishStart.started (signer.signEvent ⟨30078, now, ["d", dTag] :: tags, content, pubkey⟩)
        [.eventMsg (signer.signEvent ⟨30078, now, ["d", dTag] :: tags, content, pubkey⟩)] ∧
    (publishCall signer now pubkey st content dTag tags).2.chain.pendingIds =
      (signer.signEvent ⟨30078, now, ["d", dTag] :: tags, content, pubkey⟩).id ::
        st.chain.pendingIds := by
  simp [publishCall, publishKind30078Event, hauth, hrelay, HandlerChain.pendingIds]

/-- C2 amended, instantiated at the in-flight session `pub0`. -/
theorem C2_amended_witness :
    (publishCall sampleSigner 0 "pk" pub0 "two" "second" []).1 =
      PublishStart.started (sampleSigner.signEvent ⟨30078, 0, [["d", "second"]], "two", "pk"⟩)
        [.eventMsg (sampleSigner.signEvent ⟨30078, 0, [["d", "second"]], "two", "pk"⟩)] ∧
    (publishCall sampleSigner 0 "pk" pub0 "two" "second" []).2.chain.pendingIds =
      (sampleSigner.signEvent ⟨30078, 0, [["d", "second"]], "two", "pk"⟩).id ::
        pub0.chain.pendingIds :=
  C2_amended sampleSigner 0 "pk" pub0 "two" "second" [] rfl rfl

/-- C3 counterexample: the handshake timer fires on the pending session `st0`
whose socket is open: the promise is rejected with `Authentication timeout`,
but the connection is not closed — the socket stays open and the relay
handle stays set, so the session does not transition to `Closed`. -/
theorem C3_counterexample :
    (st0.promise = PromiseState.pending ∧ st0.svc.socketOpen = true ∧
      st0.svc.relayPresent = true) ∧
    (authTimeoutFires st0).promise = PromiseState.rejectedWith "Authentication timeout" ∧
    (authTimeoutFires st0).svc.socketOpen = true ∧
    (authTimeoutFires st0).svc.relayPresent = true := by
  decide

/-- C3 (amended): on timeout, `authenticate()` rejects with
`Authentication timeout`; on an `OK` rejection whose reason includes
`auth-required` it rejects with `Authentication required but failed` and
sends nothing; in both cases the service state — relay handle, socket, flag,
challenge — is left exactly as it was: the connection is not closed, and the
session is unauthenticated only because the flag was never set. -/
theorem C3_amended (cfg : AuthConfig) (signer : Signer) (now : Nat)
    (st : AuthSession) (i : String) (r : String)
    (hpend : st.promise = PromiseState.pending)
    (hr : strIncludes r "auth-required" = true) :
    ((authTimeoutFires st).promise = PromiseState.rejectedWith "Authentication timeout" ∧
      (authTimeoutFires st).svc = st.svc) ∧
    ((authOnMessage cfg signer now st (some (.okMsg i false (some r)))).1.promise =
        PromiseState.rejectedWith "Authentication required but failed" ∧
      (authOnMessage cfg signer now st (some (.okMsg i false (some r)))).1.svc = st.svc ∧
      (authOnMessage cfg signer now st (some (.okMsg i false (some r)))).2 = []) := by
  refine ⟨⟨?_, rfl⟩, ?_, ?_, ?_⟩
  · simp [authTimeoutFires, hpend, PromiseState.rejectWith]
  · simp [authOnMessage, reasonHasAuthRequired, hr, hpend, PromiseState.rejectWith]
  · simp [authOnMessage, reasonHasAuthRequired, hr]
  · simp [authOnMessage, reasonHasAuthRequired, hr]

/-- C3 amended, instantiated at `st0` with the rejection reason
`auth-required: subscription needs auth`. -/
theorem C3_amended_witness :
    ((authTimeoutFires st0).promise = PromiseState.rejectedWith "Authentication timeout" ∧
      (authTimeoutFires st0).svc = st0.svc) ∧
    ((authOnMessage cfg0 sampleSigner 0 st0
        (some (.okMsg "e" false (some "auth-required: subscription needs auth")))).1.promise =
        PromiseState.rejectedWith "Authentication required but failed" ∧
      (authOnMessage cfg0 sampleSigner 0 st0
        (some (.okMsg "e" false (some "auth-required: subscription needs auth")))).1.svc = st0.svc ∧
      (authOnMessage cfg0 sampleSigner 0 st0
        (some (.okMsg "e" false (some "auth-required: subscription needs auth")))).2 = []) :=
  C3_amended cfg0 sampleSigner 0 st0 "e" "auth-required: subscription needs auth" rfl
    (by decide)

/-- C4 counterexample: the publish timer fires on the pending operation `op0`
whose wrapper handler is installed: the promise is rejected with
`Publish timeout`, but the correlation handler is not removed — it remains
installed as `this.relay.onmessage`. -/
theorem C4_counterexample :
    (op0.handlerInstalled = true ∧ op0.promise = PromiseState.pending) ∧
    (publishTimeoutFires auth0 op0).2.promise = PromiseState.rejectedWith "Publish timeout" ∧
    (publishTimeoutFires auth0 op0).2.handlerInstalled = true := by
  decide

/-- C4 (amended): when a publish times out, the pending promise is rejected
with `Publish timeout` and the session is untouched — the authenticated flag
and the open connection survive — but the correlation handler is not
released: it stays installed until a message matching the identifier
arrives. -/
theorem C4_amended (auth : AuthSession) (op : PublishOp)
    (hpend : op.promise = PromiseState.pending) :
    (publishTimeoutFires auth op).1 = auth ∧
    (publishTimeoutFires auth op).2.promise = PromiseState.rejectedWith "Publish timeout" ∧
    (publishTimeoutFires auth op).2.handlerInstalled = op.handlerInstalled ∧
    (publishTimeoutFires auth op).2.signed = op.signed := by
  refine ⟨rfl, ?_, rfl, rfl⟩
  simp [publishTimeoutFires, hpend, PromiseState.rejectWith]

/-- C4 amended, instantiated at the authenticated session `auth0` with the
pending operation `op0`. -/
theorem C4_amended_witness :
    (publishTimeoutFires auth0 op0).1 = auth0 ∧
    (publishTimeoutFires auth0 op0).2.promise = PromiseState.rejectedWith "Publish timeout" ∧
    (publishTimeoutFires auth0 op0).2.handlerInstalled = op0.handlerInstalled ∧
    (publishTimeoutFires auth0 op0).2.signed = op0.signed :=
  C4_amended auth0 op0 rfl

end RelayAuth

namespace RelayAuth

/-- C5: for every service state whose authenticated flag is not set — for
any signer, clock, pubkey and call arguments — `publishKind30078Event` hits
the guard, fails with the not-authenticated error, and sends no wire
message. -/
theorem C5_publish_requires_auth (signer : Signer) (now : Nat) (pubkey : String)
    (svc : ServiceState) (content dTag : String) (tags : List (List String))
    (hnot : svc.isAuthenticated = false) :
    publishKind30078Event signer now pubkey svc content dTag tags =
      PublishStart.notAuthenticated ∧
    (publishKind30078Event signer now pubkey svc content dTag tags).sentWire = [] := by
  simp [publishKind30078Event, hnot, PublishStart.sentWire]

/-- C5, instantiated at a connected but unauthenticated service state. -/
theorem C5_publish_requires_auth_witness :
    publishKind30078Event sampleSigner 0 "pk" ⟨true, true, false, some "c1"⟩ "hello" "note-1" [] =
      PublishStart.notAuthenticated ∧
    (publishKind30078Event sampleSigner 0 "pk" ⟨true, true, false, some "c1"⟩ "hello" "note-1"
      []).sentWire = [] :=
  C5_publish_requires_auth sampleSigner 0 "pk" ⟨true, true, false, some "c1"⟩ "hello" "note-1"
    [] rfl

/-- C6: on every inbound challenge, the proof record signed and sent is the
kind-22242 event with empty content whose tags are exactly the configured
relay URL and exactly the challenge just received — which is also the
challenge now recorded as most recently received on this connection. -/
theorem C6_proof_record_exact (cfg : AuthConfig) (signer : Signer) (now : Nat)
    (st : AuthSession) (c : String) :
    (authOnMessage cfg signer now st (some (.challengeMsg c))).2 =
      [OutMsg.authMsg (signer.signEvent
        { kind := 22242, created_at := now,
          tags := [["relay", cfg.relayUrl], ["challenge", c]],
          content := "", pubkey := st.pubkey })] ∧
    (authOnMessage cfg signer now st (some (.challengeMsg c))).1.svc.authChallenge = some c ∧
    (authOnMessage cfg signer now st (some (.challengeMsg c))).1.sentProof =
      some (signer.signEvent
        { kind := 22242, created_at := now,
          tags := [["relay", cfg.relayUrl], ["challenge", c]],
          content := "", pubkey := st.pubkey }) := by
  exact ⟨rfl, rfl, rfl⟩

/-- C7 counterexample: calling publish with `extraTags = [["d", "y"]]` in an
authenticated state yields the tag list `[["d", "x"], ["d", "y"]]` — two
distinguishing-tag entries, not exactly one: the code prepends its own
`d` tag but never deduplicates caller-supplied ones. -/
theorem C7_counterexample :
    publishKind30078Event sampleSigner 0 "pk" ⟨true, true, true, none⟩ "c" "x" [["d", "y"]] =
      PublishStart.started ⟨⟨30078, 0, [["d", "x"], ["d", "y"]], "c", "pk"⟩, "c", "sig"⟩
        [.eventMsg ⟨⟨30078, 0, [["d", "x"], ["d", "y"]], "c", "pk"⟩, "c", "sig"⟩] ∧
    countDTags [["d", "x"], ["d", "y"]] = 2 := by
  decide

/-- C7 (amended): every publish call in an authenticated state sends the
kind-30078 record with the caller's content and the tag list
`["d", dTag] :: extraTags` — the distinguishing tag first, then exactly the
caller-supplied tags in order; the record has exactly one distinguishing-tag
entry provided no caller-supplied extra tag is itself a distinguishing
tag. -/
theorem C7_amended (signer : Signer) (now : Nat) (pubkey : String)
    (svc : ServiceState) (content dTag : String) (tags : List (List String))
    (hauth : svc.isAuthenticated = true) (hrelay : svc.relayPresent = true)
    (hnoD : ∀ t ∈ tags, isDTag t = false) :
    publishKind30078Event signer now pubkey svc content dTag tags =
      PublishStart.started (signer.signEvent ⟨30078, now, ["d", dTag] :: tags, content, pubkey⟩)
        [.eventMsg (signer.signEvent ⟨30078, now, ["d", dTag] :: tags, content, pubkey⟩)] ∧
    countDTags (["d", dTag] :: tags) = 1 := by
  constructor
  · simp [publishKind30078Event, hauth, hrelay]
  · have h : tags.filter isDTag = [] := by
      rw [List.filter_eq_nil_iff]
      intro a ha
      simp [hnoD a ha]
    simp [countDTags, List.filter_cons, isDTag, h]

/-- C7 amended, instantiated at scenario C of the spec:
`publish("hello", "note-1", [["t", "demo"]])`. -/
theorem C7_amended_witness :
    publishKind30078Event sampleSigner 0 "pk" ⟨true, true, true, none⟩ "hello" "note-1"
        [["t", "demo"]] =
      PublishStart.started
        (sampleSigner.signEvent ⟨30078, 0, [["d", "note-1"], ["t", "demo"]], "hello", "pk"⟩)
        [.eventMsg (sampleSigner.signEvent
          ⟨30078, 0, [["d", "note-1"], ["t", "demo"]], "hello", "pk"⟩)] ∧
    countDTags [["d", "note-1"], ["t", "demo"]] = 1 :=
  C7_amended sampleSigner 0 "pk" ⟨true, true, true, none⟩ "hello" "note-1" [["t", "demo"]]
    rfl rfl (by decide)

/-- C8: `disconnect` is idempotent and total — from every service state it
yields an unauthenticated state with no relay handle and no pending
challenge, it closes the socket whenever a relay handle was present, and a
second call is a no-op. -/
theorem C8_disconnect_idempotent (s : ServiceState) :
    disconnect (disconnect s) = disconnect s ∧
    (disconnect s).isAuthenticated = false ∧
    (disconnect s).authChallenge = none ∧
    (disconnect s).relayPresent = false ∧
    (s.relayPresent = true → (disconnect s).socketOpen = false) := by
  cases hs : s.relayPresent <;> simp [disconnect, hs]

/-- C8, instantiated at an authenticated, connected session. -/
theorem C8_disconnect_idempotent_witness :
    disconnect (disconnect ⟨true, true, true, some "c1"⟩) =
      disconnect ⟨true, true, true, some "c1"⟩ ∧
    (disconnect ⟨true, true, true, some "c1"⟩).isAuthenticated = false ∧
    (disconnect ⟨true, true, true, some "c1"⟩).authChallenge = none ∧
    (disconnect ⟨true, true, true, some "c1"⟩).relayPresent = false ∧
    ((⟨true, true, true, some "c1"⟩ : ServiceState).relayPresent = true →
      (disconnect ⟨true, true, true, some "c1"⟩).socketOpen = false) :=
  C8_disconnect_idempotent ⟨true, true, true, some "c1"⟩

/-- C9: with no NIP-07 extension in the host environment, `authenticate()`
fails with the extension-not-found error before any WebSocket is created,
and the service state is returned exactly as it was. -/
theorem C9_signer_unavailable (s : ServiceState) :
    (authenticateStart none s).1 =
      Except.error
        "NIP-07 extension not found. Please install a Nostr extension like Alby or nos2x." ∧
    (authenticateStart none s).2 = s := by
  exact ⟨rfl, rfl⟩

/-- C10: a payload on which `JSON.parse` throws is swallowed by the catch
block of each dispatcher: the `authenticate()` handler and the publish
wrapper both leave every piece of session state — promises, timers, flags,
handler chain — unchanged and send nothing. -/
theorem C10_parse_error_is_inert (cfg : AuthConfig) (signer : Signer) (now : Nat)
    (st : AuthSession) (auth : AuthSession) (op : PublishOp) :
    authOnMessage cfg signer now st none = (st, []) ∧
    publishOnMessage cfg signer now auth op none = (auth, op, []) := by
  exact ⟨rfl, rfl⟩

end RelayAuth
